import Mathlib

/-!
Verification of the node-count search loop, unscheduled-pod classification,
resource-admission checking, fake-node expansion and configuration validation
of the open-simulator `apply` package.

The Go source is shallowly embedded: pure data is modelled by structures over
Nat/Int/String, fallible code by `Except String`, the `for` loop of `Run` by a
fuel-indexed recursion whose fuel is `maxNumNewNode - i`, and the external
collaborators (the scheduling oracle `simulator.Simulate` and the two
classifier helpers `utils.NodeShouldRunPod` / `utils.MeetResourceRequests`,
which live outside the embedded package) by function parameters.
-/

/-! ## Basic data model (corev1.Node / corev1.Pod as used by this package) -/

/-- A pod, restricted to the fields this package reads: identity, the node it
is bound to, and its cpu (millicore) and memory (byte) requests. -/
structure Pod where
  namespc : String
  name : String
  nodeName : String
  cpuReqMilli : Nat
  memReqBytes : Nat
  deriving Repr, DecidableEq

/-- One volume group of the open-local node storage record. -/
structure VG where
  vgName : String
  requested : Nat
  capacity : Nat
  deriving Repr, DecidableEq

/-- The node-local storage record stored (as JSON) in a node annotation. -/
structure NodeStorage where
  vgs : List VG
  deriving Repr, DecidableEq

/-- The local-storage node marker: absent, present but not valid JSON
(ffjson.Unmarshal fails), or present and parsed. -/
inductive StorageAnno where
  | absent
  | malformed
  | parsed (s : NodeStorage)
  deriving Repr, DecidableEq

/-- A node, restricted to the fields this package reads: name, labels,
allocatable cpu (millicores) and memory (bytes), and the local-storage
annotation. -/
structure Node where
  name : String
  labels : List (String × String)
  allocCpuMilli : Nat
  allocMemBytes : Nat
  storageAnno : StorageAnno
  deriving Repr, DecidableEq

/-- simulator.NodeStatus: a node together with the pods the oracle placed on
it. -/
structure NodeStatus where
  node : Node
  pods : List Pod
  deriving Repr, DecidableEq

/-- A daemonset, opaque to the loop itself (only handed to the overhead
check). -/
structure DaemonSet where
  dsName : String
  deriving Repr, DecidableEq

/-- simulator.ResourceTypes, restricted to the fields the loop reads. -/
structure ResourceTypes where
  nodes : List Node
  daemonSets : List DaemonSet
  deriving Repr, DecidableEq

/-- simulator.AppResource: a selected application with its resources. -/
structure AppResource where
  appName : String
  resource : ResourceTypes
  deriving Repr, DecidableEq

/-- simulator.UnscheduledPod: an unplaced pod with the oracle's reason. -/
structure UnscheduledPod where
  pod : Pod
  reason : String
  deriving Repr, DecidableEq

/-- simulator.SimulateResult: per-iteration oracle outcome. -/
structure SimulateResult where
  unscheduledPods : List UnscheduledPod
  nodeStatus : List NodeStatus
  deriving Repr, DecidableEq

/-! ## Decimal rendering (model of fmt.Sprintf "%02d")

The Go expander names nodes with fmt.Sprintf("%s-%02d", prefix, i): the index
rendered in decimal, zero-padded to a minimum width of two.  We model decimal
rendering by a fuel-based digit expansion (little-endian digits, then
reversed), which lets every lemma go through by structural induction. -/

/-- Little-endian decimal digits of n, with fuel (fuel at least n suffices). -/
def decDigitsGo : Nat → Nat → List Nat
  | 0, n => [n]
  | fuel + 1, n => if n < 10 then [n] else n % 10 :: decDigitsGo fuel (n / 10)

/-- Little-endian decimal digits of n. -/
def decDigitsLE (n : Nat) : List Nat :=
  decDigitsGo n n

/-- Most-significant-first decimal digits of n. -/
def decDigits (n : Nat) : List Nat :=
  (decDigitsLE n).reverse

/-- Value of a little-endian digit list. -/
def fromLE : List Nat → Nat
  | [] => 0
  | d :: ds => d + 10 * fromLE ds

/-- The character of a decimal digit. -/
def digitChar (d : Nat) : Char :=
  Char.ofNat (48 + d)

/-- Digit list of n zero-padded on the left to width at least two, as
fmt "%02d" does. -/
def padList (n : Nat) : List Nat :=
  if (decDigits n).length = 1 then 0 :: decDigits n else decDigits n

/-- Model of fmt.Sprintf("%02d", n). -/
def pad2 (n : Nat) : String :=
  ⟨(padList n).map digitChar⟩

theorem decDigitsGo_fromLE (fuel : Nat) : ∀ n, n ≤ fuel → fromLE (decDigitsGo fuel n) = n := by
  induction fuel with
  | zero =>
    intro n hn
    interval_cases n
    simp [decDigitsGo, fromLE]
  | succ fuel ih =>
    intro n hn
    by_cases h : n < 10
    · simp [decDigitsGo, h, fromLE]
    · have hdiv : n / 10 ≤ fuel := by
        have := Nat.div_lt_self (by omega : 0 < n) (by omega : 1 < 10)
        omega
      simp only [decDigitsGo, if_neg h, fromLE]
      rw [ih (n / 10) hdiv]
      omega

theorem fromLE_decDigitsLE (n : Nat) : fromLE (decDigitsLE n) = n :=
  decDigitsGo_fromLE n n (Nat.le_refl n)

theorem decDigitsLE_injective : Function.Injective decDigitsLE := by
  intro a b h
  have ha := fromLE_decDigitsLE a
  have hb := fromLE_decDigitsLE b
  rw [← ha, ← hb, h]

theorem decDigitsGo_lt_ten (fuel : Nat) :
    ∀ n, n ≤ fuel → ∀ d ∈ decDigitsGo fuel n, d < 10 := by
  induction fuel with
  | zero =>
    intro n hn d hd
    interval_cases n
    simp [decDigitsGo] at hd
    omega
  | succ fuel ih =>
    intro n hn d hd
    by_cases h : n < 10
    · simp [decDigitsGo, h] at hd
      omega
    · simp only [decDigitsGo, if_neg h, List.mem_cons] at hd
      rcases hd with hd | hd
      · subst hd
        exact Nat.mod_lt _ (by omega)
      · have hdiv : n / 10 ≤ fuel := by
          have := Nat.div_lt_self (by omega : 0 < n) (by omega : 1 < 10)
          omega
        exact ih (n / 10) hdiv d hd

theorem decDigitsLE_lt_ten (n : Nat) : ∀ d ∈ decDigitsLE n, d < 10 :=
  decDigitsGo_lt_ten n n (Nat.le_refl n)

theorem decDigitsGo_ne_nil (fuel n : Nat) : decDigitsGo fuel n ≠ [] := by
  cases fuel with
  | zero => simp [decDigitsGo]
  | succ fuel =>
    by_cases h : n < 10 <;> simp [decDigitsGo, h]

theorem decDigitsLE_ne_nil (n : Nat) : decDigitsLE n ≠ [] :=
  decDigitsGo_ne_nil n n

theorem decDigitsLE_of_lt (n : Nat) (h : n < 10) : decDigitsLE n = [n] := by
  cases n with
  | zero => simp [decDigitsLE, decDigitsGo]
  | succ k => simp [decDigitsLE, decDigitsGo, h]

theorem decDigitsGo_length_one (fuel : Nat) :
    ∀ n, n ≤ fuel → ((decDigitsGo fuel n).length = 1 ↔ n < 10) := by
  induction fuel with
  | zero =>
    intro n hn
    interval_cases n
    simp [decDigitsGo]
  | succ fuel ih =>
    intro n hn
    by_cases h : n < 10
    · simp [decDigitsGo, h]
    · have hne := decDigitsGo_ne_nil fuel (n / 10)
      simp only [decDigitsGo, if_neg h, List.length_cons]
      constructor
      · intro hlen
        exfalso
        have : (decDigitsGo fuel (n / 10)).length = 0 := by omega
        exact hne (List.length_eq_zero.mp this)
      · intro hlt
        exact absurd hlt h

theorem decDigitsLE_length_one (n : Nat) : ((decDigitsLE n).length = 1 ↔ n < 10) :=
  decDigitsGo_length_one n n (Nat.le_refl n)

theorem decDigitsGo_leading_ne_zero (fuel : Nat) :
    ∀ n, n ≤ fuel → 0 < n → ∀ d ds, (decDigitsGo fuel n).reverse = d :: ds → d ≠ 0 := by
  induction fuel with
  | zero =>
    intro n hn hpos
    omega
  | succ fuel ih =>
    intro n hn hpos d ds hrev
    by_cases h : n < 10
    · simp [decDigitsGo, h] at hrev
      omega
    · have hdiv : n / 10 ≤ fuel := by
        have := Nat.div_lt_self (by omega : 0 < n) (by omega : 1 < 10)
        omega
      have hdivpos : 0 < n / 10 := Nat.div_pos (by omega) (by omega)
      simp only [decDigitsGo, if_neg h, List.reverse_cons] at hrev
      have hne : (decDigitsGo fuel (n / 10)).reverse ≠ [] := by
        simp [decDigitsGo_ne_nil]
      rcases hcons : (decDigitsGo fuel (n / 10)).reverse with _ | ⟨e, t⟩
      · exact absurd hcons hne
      · rw [hcons] at hrev
        simp only [List.cons_append] at hrev
        injection hrev with h1 _
        subst h1
        exact ih (n / 10) hdiv hdivpos _ t hcons

theorem decDigits_leading_ne_zero (n : Nat) (hpos : 0 < n) :
    ∀ d ds, decDigits n = d :: ds → d ≠ 0 :=
  decDigitsGo_leading_ne_zero n n (Nat.le_refl n) hpos

theorem digitChar_inj_lt : ∀ x, x < 10 → ∀ y, y < 10 → digitChar x = digitChar y → x = y := by
  decide

theorem map_digitChar_inj :
    ∀ xs ys : List Nat, (∀ x ∈ xs, x < 10) → (∀ y ∈ ys, y < 10) →
      xs.map digitChar = ys.map digitChar → xs = ys := by
  intro xs
  induction xs with
  | nil =>
    intro ys _ _ h
    cases ys with
    | nil => rfl
    | cons y t => simp at h
  | cons x xt ih =>
    intro ys hx hy h
    cases ys with
    | nil => simp at h
    | cons y yt =>
      simp only [List.map_cons, List.cons.injEq] at h
      have hxy : x = y :=
        digitChar_inj_lt x (hx x (by simp)) y (hy y (by simp)) h.1
      have ht : xt = yt :=
        ih yt (fun a ha => hx a (by simp [ha])) (fun a ha => hy a (by simp [ha])) h.2
      rw [hxy, ht]

theorem padList_lt_ten (n : Nat) : ∀ d ∈ padList n, d < 10 := by
  intro d hd
  have base : ∀ e ∈ decDigits n, e < 10 := by
    intro e he
    exact decDigitsLE_lt_ten n e (List.mem_reverse.mp he)
  unfold padList at hd
  split at hd
  · rcases List.mem_cons.mp hd with h | h
    · omega
    · exact base d h
  · exact base d hd

theorem decDigits_length_one (n : Nat) : ((decDigits n).length = 1 ↔ n < 10) := by
  rw [decDigits, List.length_reverse]
  exact decDigitsLE_length_one n

theorem pad2_injective : Function.Injective pad2 := by
  intro a b h
  have hmap : (padList a).map digitChar = (padList b).map digitChar :=
    congrArg String.data h
  have hlist : padList a = padList b :=
    map_digitChar_inj _ _ (padList_lt_ten a) (padList_lt_ten b) hmap
  have key : decDigits a = decDigits b := by
    unfold padList at hlist
    by_cases ha : (decDigits a).length = 1
    · by_cases hb : (decDigits b).length = 1
      · rw [if_pos ha, if_pos hb] at hlist
        exact (List.cons.injEq _ _ _ _ ▸ hlist).2
      · exfalso
        rw [if_pos ha, if_neg hb] at hlist
        have hbge : ¬ b < 10 := fun hlt => hb ((decDigits_length_one b).mpr hlt)
        rcases hda : decDigits a with _ | ⟨d, ds⟩
        · have : (decDigits a).length = 0 := by rw [hda]; rfl
          omega
        · rw [hda] at hlist
          have := decDigits_leading_ne_zero b (by omega) 0 (d :: ds) hlist.symm
          exact this rfl
    · by_cases hb : (decDigits b).length = 1
      · exfalso
        rw [if_neg ha, if_pos hb] at hlist
        have hage : ¬ a < 10 := fun hlt => ha ((decDigits_length_one a).mpr hlt)
        rcases hdb : decDigits b with _ | ⟨d, ds⟩
        · have : (decDigits b).length = 0 := by rw [hdb]; rfl
          omega
        · rw [hdb] at hlist
          have := decDigits_leading_ne_zero a (by omega) 0 (d :: ds) hlist
          exact this rfl
      · rw [if_neg ha, if_neg hb] at hlist
        exact hlist
  have hle : decDigitsLE a = decDigitsLE b := by
    have := congrArg List.reverse key
    simpa [decDigits] using this
  exact decDigitsLE_injective hle

/-! ## Node Template Expander (newFakeNodes) -/

/-- Modelled from the spec: the simontype.NewNodeNamePrefix constant (the
constant declaration is outside the given sources); the spec names the
produced nodes simulated-node-00, simulated-node-01, ... -/
def newNodeNameStem : String :=
  "simulated-node"

/-- Modelled from the spec: the simontype.LabelNewNode marker-label key (the
constant declaration is outside the given sources); the spec only requires a
marker label identifying simulator-added nodes. -/
def labelNewNode : String :=
  "simon/new-node"

/-- Set key to value in an association list, replacing an existing binding
(model of metav1.SetMetaDataLabel on the labels map). -/
def setKV : List (String × String) → String → String → List (String × String)
  | [], k, v => [(k, v)]
  | (k0, v0) :: rest, k, v =>
    if k0 = k then (k, v) :: rest else (k0, v0) :: setKV rest k v

/-- Look a key up in an association list (model of reading a label). -/
def getKV (l : List (String × String)) (k : String) : Option String :=
  (l.find? (fun p => p.1 = k)).map (fun p => p.2)

/-- Modelled from the spec: utils.MakeValidNodeByNode (outside the given
sources) clones the template node and gives the clone the synthesized
hostname; per the spec a CandidateNode is a clone of the template with a
synthesized unique name. -/
def makeValidNodeByNode (node : Node) (hostname : String) : Node :=
  { node with name := hostname }

/-- Model of metav1.SetMetaDataLabel on a node. -/
def setMetaDataLabel (node : Node) (key value : String) : Node :=
  { node with labels := setKV node.labels key value }

/-- The hostname fmt.Sprintf("%s-%02d", simontype.NewNodeNamePrefix, i). -/
def fakeNodeName (i : Nat) : String :=
  newNodeNameStem ++ "-" ++ pad2 i

/-- The fake node produced for index i from the template. -/
def fakeNodeAt (node : Node) (i : Nat) : Node :=
  setMetaDataLabel (makeValidNodeByNode node (fakeNodeName i)) labelNewNode ""

/-- newFakeNodes: nil template is an error; otherwise one clone per index
0..nodeCount-1, renamed and tagged with the new-node marker label
(DeepCopy is the identity on values). -/
def newFakeNodes : Option Node → Nat → Except String (List Node)
  | none, _ => .error "node is nil "
  | some node, nodeCount => .ok ((List.range nodeCount).map (fakeNodeAt node))

/-! ## Resource Admission Checker (satisfyResourceSetting) -/

/-- The three admission ceilings as read from the environment: none models an
unset or empty environment variable, some v a variable that strconv.Atoi
parsed to the integer v.  (When Atoi itself fails the Go function returns an
error before any comparison; that path is outside the claims and not
modelled.) -/
structure Ceilings where
  maxCpuEnv : Option Int
  maxMemEnv : Option Int
  maxVgEnv : Option Int
  deriving Repr, DecidableEq

/-- Effective ceiling: default 100 when unconfigured, and a configured value
outside [0, 100] is silently reset to 100 (the clamp the Go code repeats for
each of maxcpu, maxmem, maxvg). -/
def clampCeiling : Option Int → Nat
  | none => 100
  | some v => if v > 100 ∨ v < 0 then 100 else v.toNat

/-- Modelled from the spec: utils.GetPodsTotalRequestsAndLimitsByNodeName
(outside the given sources) aggregates the cpu (millicore) and memory (byte)
requests of the pods bound to the named node. -/
def podsTotalRequestsByNodeName (allPods : List Pod) (nodeName : String) : Nat × Nat :=
  allPods.foldl
    (fun acc p =>
      if p.nodeName = nodeName then (acc.1 + p.cpuReqMilli, acc.2 + p.memReqBytes) else acc)
    (0, 0)

/-- All pods of all node statuses, in order (the allPods accumulation). -/
def allPodsOf (statuses : List NodeStatus) : List Pod :=
  (statuses.map (fun st => st.pods)).flatten

/-- Totals accumulated over the node statuses: allocatable and requested cpu
and memory, and volume-group requested and capacity. -/
structure Totals where
  allocCpuMilli : Nat
  allocMemBytes : Nat
  usedCpuMilli : Nat
  usedMemBytes : Nat
  vgRequested : Nat
  vgCapacity : Nat
  deriving Repr, DecidableEq

/-- Sum of the requested field over the volume groups. -/
def vgsRequested (s : NodeStorage) : Nat :=
  s.vgs.foldl (fun acc vg => acc + vg.requested) 0

/-- Sum of the capacity field over the volume groups. -/
def vgsCapacity (s : NodeStorage) : Nat :=
  s.vgs.foldl (fun acc vg => acc + vg.capacity) 0

/-- One step of the accumulation loop of satisfyResourceSetting: add the
node's allocatable cpu/memory, the requests of the pods bound to it, and its
volume groups; a storage annotation that fails to unmarshal is an error. -/
def totalsStep (allPods : List Pod) (t : Totals) (st : NodeStatus) : Except String Totals :=
  let reqs := podsTotalRequestsByNodeName allPods st.node.name
  let t1 : Totals :=
    { t with
      allocCpuMilli := t.allocCpuMilli + st.node.allocCpuMilli
      allocMemBytes := t.allocMemBytes + st.node.allocMemBytes
      usedCpuMilli := t.usedCpuMilli + reqs.1
      usedMemBytes := t.usedMemBytes + reqs.2 }
  match st.node.storageAnno with
  | .absent => .ok t1
  | .malformed => .error ("error when unmarshal json data, node is " ++ st.node.name ++ "\n")
  | .parsed s =>
    .ok { t1 with
          vgRequested := t1.vgRequested + vgsRequested s
          vgCapacity := t1.vgCapacity + vgsCapacity s }

/-- The full accumulation over the node statuses. -/
def computeTotals (statuses : List NodeStatus) : Except String Totals :=
  statuses.foldlM (totalsStep (allPodsOf statuses)) ⟨0, 0, 0, 0, 0, 0⟩

/-- Floor of log2 with fuel (fuel at least n suffices). -/
def log2Fuel : Nat → Nat → Nat
  | 0, _ => 0
  | fuel + 1, n => if n < 2 then 0 else log2Fuel fuel (n / 2) + 1

/-- Floor of log2 of a positive natural. -/
def natLog2 (n : Nat) : Nat :=
  log2Fuel n n

/-- The quotient n/d rounded to the nearest integer, ties to even. -/
def rne (n d : Nat) : Nat :=
  let q := n / d
  let r := n % d
  if 2 * r < d then q
  else if d < 2 * r then q + 1
  else if q % 2 = 0 then q else q + 1

/-- The rational n/d scaled by 2^s, as a numerator/denominator pair. -/
def scaleShift (n d : Nat) (s : Int) : Nat × Nat :=
  if 0 ≤ s then (n * 2 ^ s.toNat, d) else (n, d * 2 ^ (-s).toNat)

/-- Floor of log2 of the positive rational n/d: the bit-length candidate,
corrected downward when n/d is below its power of two. -/
def floorLog2Rat (n d : Nat) : Int :=
  let c : Int := (natLog2 n : Int) - (natLog2 d : Int)
  if (if 0 ≤ c then d * 2 ^ c.toNat ≤ n else d ≤ n * 2 ^ (-c).toNat) then c else c - 1

/-- Round the positive rational n/d to the nearest IEEE binary64 value, ties
to even, returned as (m, e) with value m * 2^(e - 52) and 2^52 ≤ m < 2^53.
(All values this file feeds it lie in the binary64 normal range, so no
subnormal or overflow handling is needed.) -/
def fpRound (n d : Nat) : Nat × Int :=
  let e := floorLog2Rat n d
  let p := scaleShift n d (52 - e)
  let m := rne p.1 p.2
  if m = 2 ^ 53 then (2 ^ 52, e + 1) else (m, e)

/-- Occupancy percentage: the Go code computes
int(float64(used)/float64(alloc)*100) in IEEE binary64 (part_000:649-650):
each of the two int64-to-float64 conversions, the division, and the
multiplication by 100 (100 is an exact double) is correctly rounded to
nearest, ties to even, and the result is truncated toward zero — which is
floor(used*100/alloc) for most inputs but can be one below it when the double
rounding lands just under an integer (290/1000 gives 28, floor 29).  With
alloc = 0 the float division yields NaN or +Inf whose Go conversion to int is
implementation-dependent (it is negative on amd64, hence below every
ceiling); that case is modelled as 0, matching the amd64 verdict. -/
def occupancyRate (used alloc : Nat) : Nat :=
  if used = 0 ∨ alloc = 0 then 0
  else
    let fu := fpRound used 1
    let fa := fpRound alloc 1
    let q := scaleShift fu.1 fa.1 (fu.2 - fa.2)
    let fd := fpRound q.1 q.2
    let pm := scaleShift (fd.1 * 100) 1 (fd.2 - 52)
    let fm := fpRound pm.1 pm.2
    if 52 ≤ fm.2 then fm.1 * 2 ^ (fm.2 - 52).toNat else fm.1 / 2 ^ (52 - fm.2).toNat

/-- True when the cpu check of satisfyResourceSetting rejects. -/
def cpuRejects (cfg : Ceilings) (t : Totals) : Bool :=
  decide (occupancyRate t.usedCpuMilli t.allocCpuMilli > clampCeiling cfg.maxCpuEnv)

/-- True when the memory check of satisfyResourceSetting rejects: the Go code
reads MilliValue for memory as well, so both totals are scaled by 1000 (an
exact integer scaling) before the float64 conversions. -/
def memRejects (cfg : Ceilings) (t : Totals) : Bool :=
  decide (occupancyRate (t.usedMemBytes * 1000) (t.allocMemBytes * 1000) > clampCeiling cfg.maxMemEnv)

/-- True when the volume-group check of satisfyResourceSetting rejects: the
check is guarded by Capacity != 0 and only then compares the rate. -/
def vgRejects (cfg : Ceilings) (t : Totals) : Bool :=
  decide (t.vgCapacity ≠ 0) && decide (occupancyRate t.vgRequested t.vgCapacity > clampCeiling cfg.maxVgEnv)

/-- The rejection message for cpu. -/
def cpuRejectMsg (cfg : Ceilings) (t : Totals) : String :=
  "the average occupancy rate(" ++ toString (occupancyRate t.usedCpuMilli t.allocCpuMilli) ++
    "%) of cpu goes beyond the env setting(" ++ toString (clampCeiling cfg.maxCpuEnv) ++ "%)\n"

/-- The rejection message for memory. -/
def memRejectMsg (cfg : Ceilings) (t : Totals) : String :=
  "the average occupancy rate(" ++
    toString (occupancyRate (t.usedMemBytes * 1000) (t.allocMemBytes * 1000)) ++
    "%) of memory goes beyond the env setting(" ++ toString (clampCeiling cfg.maxMemEnv) ++ "%)\n"

/-- The rejection message for the volume groups. -/
def vgRejectMsg (cfg : Ceilings) (t : Totals) : String :=
  "the average occupancy rate(" ++ toString (occupancyRate t.vgRequested t.vgCapacity) ++
    "%) of vg goes beyond the env setting(" ++ toString (clampCeiling cfg.maxVgEnv) ++ "%)\n"

/-- satisfyResourceSetting: accumulate the totals, then reject on the first
resource kind, in the order cpu, memory, volume group, whose occupancy rate
strictly exceeds its effective ceiling; otherwise accept. -/
def satisfyResourceSetting (cfg : Ceilings) (nodeStatuses : List NodeStatus) :
    Except String (Bool × String) :=
  match computeTotals nodeStatuses with
  | .error e => .error e
  | .ok t =>
    if cpuRejects cfg t then .ok (false, cpuRejectMsg cfg t)
    else if memRejects cfg t then .ok (false, memRejectMsg cfg t)
    else if vgRejects cfg t then .ok (false, vgRejectMsg cfg t)
    else .ok (true, "")

/-! ## Node-Count Search Loop (the Step 4 loop of Run)

The two per-pod checks utils.NodeShouldRunPod (placement constraints of the
template: affinity and taints) and utils.MeetResourceRequests (fixed per-node
daemonset overhead) and the oracle simulator.Simulate live outside the given
sources; the loop consumes them as black boxes, so they are function
parameters of the embedding and the loop theorems hold for every
instantiation. -/

/-- The external collaborators of the loop. -/
structure Externals where
  simulate : ResourceTypes → List AppResource → Except String SimulateResult
  nodeShouldRunPod : Node → Pod → Bool
  meetResourceRequests : Node → Pod → List DaemonSet → Except String Bool

/-- All inputs of the Step 4 loop of Run. -/
structure RunParams where
  ext : Externals
  cfg : Ceilings
  clusterResource : ResourceTypes
  selected : List AppResource
  newNode : Node
  maxNumNewNode : Nat

/-- Why an unplaced pod aborts the search: the template can never run it
(affinity/taints), or the per-node daemonset overhead already exhausts the
template node. -/
inductive StructuralReason where
  | unfixable (u : UnscheduledPod)
  | overheadBlocked (u : UnscheduledPod)
  deriving Repr, DecidableEq

/-- Result of one loop iteration: full placement with admission passed,
a structural abort, a retry with one more node (admission rejected or every
unplaced pod merely capacity-limited), or a propagated fatal error. -/
inductive IterResult where
  | succeeded (res : SimulateResult)
  | structFail (r : StructuralReason) (res : SimulateResult)
  | tryNext
  | fatal (e : String)
  deriving Repr, DecidableEq

/-- The console effects of Run that the claims talk about: the per-iteration
messages and the calls of the report function. -/
inductive Effect where
  | addNodesMsg (i : Nat)
  | admissionRejectedMsg (reason : String)
  | unscheduledCountMsg (n : Nat)
  | unfixableMsg (u : UnscheduledPod)
  | overheadBlockedMsg (u : UnscheduledPod)
  | successMsg
  | exhaustedMsg (maxCount : Nat)
  | reportTable (ns : List NodeStatus)
  deriving Repr, DecidableEq

/-- True exactly for the reportTable effect. -/
def Effect.isReportTable : Effect → Bool
  | .reportTable _ => true
  | _ => false

/-- The inner per-pod loop over the unplaced pods: NodeShouldRunPod is
checked first for each pod; only when it passes is MeetResourceRequests
consulted, whose error is propagated; the first structural pod decides. -/
def classifyPods (ext : Externals) (newNode : Node) (allDS : List DaemonSet) :
    List UnscheduledPod → Except String (Option StructuralReason)
  | [] => .ok none
  | u :: rest =>
    if ext.nodeShouldRunPod newNode u.pod = false then
      .ok (some (.unfixable u))
    else
      match ext.meetResourceRequests newNode u.pod allDS with
      | .error e => .error e
      | .ok false => .ok (some (.overheadBlocked u))
      | .ok true => classifyPods ext newNode allDS rest

/-- The daemonsets handed to the overhead check: the cluster's, then those of
each selected application in order. -/
def allDaemonSetsOf (p : RunParams) : List DaemonSet :=
  p.clusterResource.daemonSets ++ (p.selected.map (fun a => a.resource.daemonSets)).flatten

/-- The snapshot of iteration i: the unchanged original cluster resource with
the freshly generated fake nodes appended to its node list. -/
def snapshotWith (p : RunParams) (fakes : List Node) : ResourceTypes :=
  { p.clusterResource with nodes := p.clusterResource.nodes ++ fakes }

/-- One iteration of the Step 4 loop at node count i: generate the fake
nodes, build the iteration snapshot, call the oracle; with zero unplaced pods
run the admission check (pass breaks with success, a rejection prints its
reason and retries); with unplaced pods run the per-pod classification (a
structural pod prints its message, prints the report, and stops the run).
The second component lists the console effects of the iteration. -/
def runIteration (p : RunParams) (i : Nat) : IterResult × List Effect :=
  match newFakeNodes (some p.newNode) i with
  | .error e => (.fatal e, [.addNodesMsg i])
  | .ok fakes =>
    match p.ext.simulate (snapshotWith p fakes) p.selected with
    | .error e => (.fatal e, [.addNodesMsg i])
    | .ok result =>
      if result.unscheduledPods.isEmpty then
        match satisfyResourceSetting p.cfg result.nodeStatus with
        | .error e => (.fatal e, [.addNodesMsg i])
        | .ok (true, _) => (.succeeded result, [.addNodesMsg i])
        | .ok (false, reason) => (.tryNext, [.addNodesMsg i, .admissionRejectedMsg reason])
      else
        match classifyPods p.ext p.newNode (allDaemonSetsOf p) result.unscheduledPods with
        | .error e =>
          (.fatal e, [.addNodesMsg i, .unscheduledCountMsg result.unscheduledPods.length])
        | .ok (some (.unfixable u)) =>
          (.structFail (.unfixable u) result,
            [.addNodesMsg i, .unscheduledCountMsg result.unscheduledPods.length,
             .unfixableMsg u, .reportTable result.nodeStatus])
        | .ok (some (.overheadBlocked u)) =>
          (.structFail (.overheadBlocked u) result,
            [.addNodesMsg i, .unscheduledCountMsg result.unscheduledPods.length,
             .overheadBlockedMsg u, .reportTable result.nodeStatus])
        | .ok none =>
          (.tryNext, [.addNodesMsg i, .unscheduledCountMsg result.unscheduledPods.length])

/-- Terminal outcome of Run from Step 4 on.  success and structurallyFailed
carry the final oracle outcome (and the node count); fatalError is the only
outcome Run returns as a Go error, every other outcome returns nil. -/
inductive RunOutcome where
  | success (res : SimulateResult) (i : Nat)
  | structurallyFailed (r : StructuralReason) (res : SimulateResult) (i : Nat)
  | exhausted
  | fatalError (e : String)
  deriving Repr, DecidableEq

/-- True when Run returns a nil error for this outcome. -/
def RunOutcome.returnsNilError : RunOutcome → Bool
  | .fatalError _ => false
  | _ => true

/-- The loop for i := 0; i < MaxNumNewNode; i++, written with the remaining
iteration count MaxNumNewNode - i as structural fuel; fuel 0 is the loop
condition failing, after which Run prints the we-have-added message (and no
report). -/
def runLoop (p : RunParams) : Nat → Nat → RunOutcome × List Effect
  | 0, _ => (.exhausted, [.exhaustedMsg p.maxNumNewNode])
  | fuel + 1, i =>
    match runIteration p i with
    | (.succeeded res, es) =>
      (.success res i, es ++ [.successMsg, .reportTable res.nodeStatus])
    | (.structFail r res, es) => (.structurallyFailed r res i, es)
    | (.fatal e, es) => (.fatalError e, es)
    | (.tryNext, es) =>
      ((runLoop p fuel (i + 1)).1, es ++ (runLoop p fuel (i + 1)).2)

/-- The remainder of the run from node count i on. -/
def runFrom (p : RunParams) (i : Nat) : RunOutcome × List Effect :=
  runLoop p (p.maxNumNewNode - i) i

/-- The whole Step 4 computation of Run: outcome and console effects. -/
def run (p : RunParams) : RunOutcome × List Effect :=
  runFrom p 0

/-- The node counts the loop attempts from count i on (every count whose
iteration is entered). -/
def attemptsLoop (p : RunParams) : Nat → Nat → List Nat
  | 0, _ => []
  | fuel + 1, i =>
    match (runIteration p i).1 with
    | .tryNext => i :: attemptsLoop p fuel (i + 1)
    | _ => [i]

/-- The node counts attempted from count i on. -/
def attemptsFrom (p : RunParams) (i : Nat) : List Nat :=
  attemptsLoop p (p.maxNumNewNode - i) i

/-- All node counts the run attempts. -/
def attempts (p : RunParams) : List Nat :=
  attemptsFrom p 0

/-! ## Configuration validation (validate) -/

/-- The cluster source of the simon configuration. -/
structure ClusterCfg where
  kubeConfig : String
  customCluster : String
  deriving Repr, DecidableEq

/-- One application entry of the simon configuration. -/
structure AppInfo where
  appName : String
  path : String
  deriving Repr, DecidableEq

/-- The applier fields that validate reads. -/
structure Applier where
  cluster : ClusterCfg
  schedulerConfig : String
  newNode : String
  appList : List AppInfo
  deriving Repr, DecidableEq

/-- The per-application path checks of validate, in order. -/
def checkAppPaths (pathExists : String → Bool) : List AppInfo → Except String Unit
  | [] => .ok ()
  | a :: rest =>
    if pathExists a.path = false then
      .error ("invalid path of " ++ a.appName ++ " app ")
    else
      checkAppPaths pathExists rest

/-- validate: exactly one of kubeConfig and customCluster must be set, then
every configured path must exist (os.Stat modelled by the pathExists
parameter). -/
def validate (pathExists : String → Bool) (applier : Applier) : Except String Unit :=
  if (applier.cluster.kubeConfig.length = 0 ∧ applier.cluster.customCluster.length = 0)
      ∨ (applier.cluster.kubeConfig.length ≠ 0 ∧ applier.cluster.customCluster.length ≠ 0) then
    .error "only one of values of both kubeConfig and customConfig must exist "
  else if applier.cluster.kubeConfig.length ≠ 0 ∧ pathExists applier.cluster.kubeConfig = false then
    .error "invalid path of kubeConfig "
  else if applier.cluster.customCluster.length ≠ 0 ∧ pathExists applier.cluster.customCluster = false then
    .error "invalid path of customConfig "
  else if applier.schedulerConfig.length ≠ 0 ∧ pathExists applier.schedulerConfig = false then
    .error "invalid path of scheduler config "
  else if applier.newNode.length ≠ 0 ∧ pathExists applier.newNode = false then
    .error "invalid path of newNode "
  else
    checkAppPaths pathExists applier.appList

/-! ## Concrete instances used for evaluation -/

/-- A run whose p.ext.simulate is replaced by another oracle. -/
def withSimulate (p : RunParams)
    (sim : ResourceTypes → List AppResource → Except String SimulateResult) : RunParams :=
  { p with ext := { p.ext with simulate := sim } }

/-- A concrete node template. -/
def sampleTemplate : Node :=
  ⟨"template-node", [("zone", "a")], 2000, 4096, .absent⟩

/-- A concrete pod that stays unplaced in the exhaustion scenarios. -/
def samplePod : Pod :=
  ⟨"default", "p0", "", 500, 1024⟩

/-- The unplaced-pod record of samplePod. -/
def sampleUnscheduled : UnscheduledPod :=
  ⟨samplePod, "0/1 nodes are available"⟩

/-- A concrete original cluster node. -/
def sampleClusterNode : Node :=
  ⟨"orig-node", [], 2000, 4096, .absent⟩

/-- A concrete original cluster resource. -/
def sampleCluster : ResourceTypes :=
  ⟨[sampleClusterNode], [⟨"ds0"⟩]⟩

/-- An oracle that always leaves samplePod unplaced; the pod passes both
per-pod checks, so every iteration is merely capacity-limited. -/
def sampleExhaustExt : Externals :=
  ⟨fun _ _ => .ok ⟨[sampleUnscheduled], []⟩, fun _ _ => true, fun _ _ _ => .ok true⟩

/-- A run with ceiling 5 that can never fully place its workload. -/
def sampleExhaustParams : RunParams :=
  ⟨sampleExhaustExt, ⟨none, none, none⟩, sampleCluster, [], sampleTemplate, 5⟩

/-- The empty oracle outcome of the success scenario. -/
def sampleSuccessRes : SimulateResult :=
  ⟨[], []⟩

/-- An oracle that places everything once the snapshot has at least 3 nodes
(the original node plus 2 fakes). -/
def sampleSuccessExt : Externals :=
  ⟨fun rt _ => if rt.nodes.length ≥ 3 then .ok sampleSuccessRes else .ok ⟨[sampleUnscheduled], []⟩,
   fun _ _ => true, fun _ _ _ => .ok true⟩

/-- A run that first succeeds at node count 2. -/
def sampleSuccessParams : RunParams :=
  ⟨sampleSuccessExt, ⟨none, none, none⟩, sampleCluster, [], sampleTemplate, 5⟩

/-- An oracle whose unplaced pod fails the placement-constraint check against
the template. -/
def sampleUnfixExt : Externals :=
  ⟨fun _ _ => .ok ⟨[sampleUnscheduled], []⟩, fun _ _ => false, fun _ _ _ => .ok true⟩

/-- The oracle outcome of the structural-failure scenario. -/
def sampleStructRes : SimulateResult :=
  ⟨[sampleUnscheduled], []⟩

/-- A run that structurally fails at node count 0. -/
def sampleStructParams : RunParams :=
  ⟨sampleUnfixExt, ⟨none, none, none⟩, sampleCluster, [], sampleTemplate, 5⟩

/-- The admission-example node: total allocatable cpu 1000m. -/
def admissionNode : Node :=
  ⟨"n1", [], 1000, 1000000000, .absent⟩

/-- The admission-example pod: 900m cpu requested, bound to n1. -/
def admissionPod : Pod :=
  ⟨"default", "busy", "n1", 900, 0⟩

/-- The admission-example node status. -/
def admissionStatus : NodeStatus :=
  ⟨admissionNode, [admissionPod]⟩

/-- The totals of the admission example. -/
def admissionTotals : Totals :=
  ⟨1000, 1000000000, 900, 0, 0, 0⟩

/-- A node for the floor-gap example: allocatable cpu 1000m. -/
def floorGapNode : Node :=
  ⟨"g0", [], 1000, 1000000000, .absent⟩

/-- A pod requesting 290m cpu, bound to the floor-gap node: the binary64
occupancy is 28 although floor(290*100/1000) is 29. -/
def floorGapPod : Pod :=
  ⟨"default", "p29", "g0", 290, 0⟩

/-- The floor-gap node status. -/
def floorGapStatus : NodeStatus :=
  ⟨floorGapNode, [floorGapPod]⟩

/-- A node with zero allocatable cpu. -/
def zeroAllocNode : Node :=
  ⟨"z0", [], 0, 4096, .absent⟩

/-- A pod bound to the zero-allocatable node, requesting 100m cpu. -/
def zeroAllocPod : Pod :=
  ⟨"default", "p1", "z0", 100, 0⟩

/-- The snapshot with zero total allocatable cpu but positive requested cpu. -/
def zeroAllocStatuses : List NodeStatus :=
  [⟨zeroAllocNode, [zeroAllocPod]⟩]

/-- The totals of the zero-allocatable snapshot. -/
def zeroAllocTotals : Totals :=
  ⟨0, 4096, 100, 0, 0, 0⟩

/-- Totals with volume-group demand but zero volume-group capacity. -/
def zeroVgTotals : Totals :=
  ⟨0, 0, 0, 0, 5, 0⟩

/-- An applier configuring neither cluster source. -/
def neitherSourceApplier : Applier :=
  ⟨⟨"", ""⟩, "", "", []⟩

/-- An applier configuring both cluster sources. -/
def bothSourceApplier : Applier :=
  ⟨⟨"kube.conf", "cluster.yaml"⟩, "", "", []⟩

/-! ## Loop unfolding lemmas -/

theorem runFrom_step (p : RunParams) (i : Nat) (h : i < p.maxNumNewNode) :
    runFrom p i =
      match runIteration p i with
      | (.succeeded res, es) =>
        (.success res i, es ++ [.successMsg, .reportTable res.nodeStatus])
      | (.structFail r res, es) => (.structurallyFailed r res i, es)
      | (.fatal e, es) => (.fatalError e, es)
      | (.tryNext, es) => ((runFrom p (i + 1)).1, es ++ (runFrom p (i + 1)).2) := by
  have h1 : p.maxNumNewNode - i = (p.maxNumNewNode - (i + 1)) + 1 := by omega
  unfold runFrom
  rw [h1]
  rfl

theorem runFrom_stop (p : RunParams) (i : Nat) (h : ¬ i < p.maxNumNewNode) :
    runFrom p i = (.exhausted, [.exhaustedMsg p.maxNumNewNode]) := by
  have h1 : p.maxNumNewNode - i = 0 := by omega
  unfold runFrom
  rw [h1]
  rfl

theorem runFrom_tryNext (p : RunParams) (i : Nat) (h : i < p.maxNumNewNode)
    (hit : (runIteration p i).1 = .tryNext) :
    (runFrom p i).1 = (runFrom p (i + 1)).1 := by
  rcases hr : runIteration p i with ⟨r, es⟩
  have hr1 : r = .tryNext := by rw [hr] at hit; exact hit
  subst hr1
  rw [runFrom_step p i h, hr]

theorem runFrom_succeeded (p : RunParams) (i : Nat) (res : SimulateResult) (es : List Effect)
    (h : i < p.maxNumNewNode) (hit : runIteration p i = (.succeeded res, es)) :
    runFrom p i = (.success res i, es ++ [.successMsg, .reportTable res.nodeStatus]) := by
  rw [runFrom_step p i h, hit]

theorem runFrom_structFail (p : RunParams) (i : Nat) (r : StructuralReason)
    (res : SimulateResult) (es : List Effect)
    (h : i < p.maxNumNewNode) (hit : runIteration p i = (.structFail r res, es)) :
    runFrom p i = (.structurallyFailed r res i, es) := by
  rw [runFrom_step p i h, hit]

theorem runFrom_fatal (p : RunParams) (i : Nat) (e : String) (es : List Effect)
    (h : i < p.maxNumNewNode) (hit : runIteration p i = (.fatal e, es)) :
    runFrom p i = (.fatalError e, es) := by
  rw [runFrom_step p i h, hit]

theorem attemptsFrom_stop (p : RunParams) (i : Nat) (h : ¬ i < p.maxNumNewNode) :
    attemptsFrom p i = [] := by
  have h1 : p.maxNumNewNode - i = 0 := by omega
  unfold attemptsFrom
  rw [h1]
  rfl

theorem attemptsFrom_step (p : RunParams) (i : Nat) (h : i < p.maxNumNewNode) :
    attemptsFrom p i =
      match (runIteration p i).1 with
      | .tryNext => i :: attemptsFrom p (i + 1)
      | _ => [i] := by
  have h1 : p.maxNumNewNode - i = (p.maxNumNewNode - (i + 1)) + 1 := by omega
  unfold attemptsFrom
  rw [h1]
  rfl

theorem attemptsFrom_tryNext (p : RunParams) (i : Nat) (h : i < p.maxNumNewNode)
    (hit : (runIteration p i).1 = .tryNext) :
    attemptsFrom p i = i :: attemptsFrom p (i + 1) := by
  rw [attemptsFrom_step p i h, hit]

theorem attemptsFrom_last (p : RunParams) (i : Nat) (h : i < p.maxNumNewNode)
    (hit : (runIteration p i).1 ≠ .tryNext) :
    attemptsFrom p i = [i] := by
  rw [attemptsFrom_step p i h]
  cases hr : (runIteration p i).1 with
  | succeeded res => rfl
  | structFail r res => rfl
  | tryNext => exact absurd hr hit
  | fatal e => rfl

theorem attemptsFrom_range (p : RunParams) :
    ∀ n i, p.maxNumNewNode - i = n → ∃ m, m ≤ n ∧ attemptsFrom p i = List.range' i m := by
  intro n
  induction n with
  | zero =>
    intro i h0
    refine ⟨0, Nat.le_refl 0, ?_⟩
    rw [attemptsFrom_stop p i (by omega), List.range'_zero]
  | succ n ih =>
    intro i h0
    have hi : i < p.maxNumNewNode := by omega
    by_cases hr : (runIteration p i).1 = .tryNext
    · obtain ⟨m, hm, he⟩ := ih (i + 1) (by omega)
      refine ⟨m + 1, by omega, ?_⟩
      rw [attemptsFrom_tryNext p i hi hr, he, List.range'_succ]
    · exact ⟨1, by omega, by rw [attemptsFrom_last p i hi hr, List.range'_one]⟩

theorem attempts_is_range (p : RunParams) :
    ∃ k, k ≤ p.maxNumNewNode ∧ attempts p = List.range k := by
  obtain ⟨m, hm, he⟩ := attemptsFrom_range p (p.maxNumNewNode - 0) 0 rfl
  refine ⟨m, by omega, ?_⟩
  rw [attempts, he, List.range_eq_range']

theorem attemptsFrom_mem (p : RunParams) :
    ∀ n i0 j, p.maxNumNewNode - i0 = n → j ∈ attemptsFrom p i0 →
      i0 ≤ j ∧ j < p.maxNumNewNode ∧
        ∀ m, i0 ≤ m → m < j → (runIteration p m).1 = .tryNext := by
  intro n
  induction n with
  | zero =>
    intro i0 j h0 hj
    rw [attemptsFrom_stop p i0 (by omega)] at hj
    simp at hj
  | succ n ih =>
    intro i0 j h0 hj
    have hi : i0 < p.maxNumNewNode := by omega
    by_cases hr : (runIteration p i0).1 = .tryNext
    · rw [attemptsFrom_tryNext p i0 hi hr] at hj
      rcases List.mem_cons.mp hj with hj0 | hjt
      · subst hj0
        exact ⟨Nat.le_refl j, hi, fun m hm1 hm2 => by omega⟩
      · obtain ⟨h1, h2, h3⟩ := ih (i0 + 1) j (by omega) hjt
        refine ⟨by omega, h2, fun m hm1 hm2 => ?_⟩
        rcases Nat.eq_or_lt_of_le hm1 with hm | hm
        · rw [← hm]; exact hr
        · exact h3 m (by omega) hm2
    · rw [attemptsFrom_last p i0 hi hr] at hj
      have hj0 : j = i0 := by simpa using hj
      subst hj0
      exact ⟨Nat.le_refl j, hi, fun m hm1 hm2 => by omega⟩

theorem attempts_mem (p : RunParams) (i : Nat) (h : i ∈ attempts p) :
    i < p.maxNumNewNode ∧ ∀ m, m < i → (runIteration p m).1 = .tryNext := by
  obtain ⟨h1, h2, h3⟩ := attemptsFrom_mem p (p.maxNumNewNode - 0) 0 i rfl h
  exact ⟨h2, fun m hm => h3 m (Nat.zero_le m) hm⟩

theorem attemptsFrom_self_mem (p : RunParams) (i : Nat) (h : i < p.maxNumNewNode) :
    i ∈ attemptsFrom p i := by
  rw [attemptsFrom_step p i h]
  cases hr : (runIteration p i).1 with
  | succeeded res => exact List.mem_singleton.mpr rfl
  | structFail r res => exact List.mem_singleton.mpr rfl
  | tryNext => exact List.mem_cons_self i _
  | fatal e => exact List.mem_singleton.mpr rfl

theorem runFrom_skip (p : RunParams) (j : Nat) (hj : j ≤ p.maxNumNewNode) :
    ∀ n k, j - k = n → k ≤ j →
      (∀ m, k ≤ m → m < j → (runIteration p m).1 = .tryNext) →
      (runFrom p k).1 = (runFrom p j).1 := by
  intro n
  induction n with
  | zero =>
    intro k h0 hkj _
    have : k = j := by omega
    rw [this]
  | succ n ih =>
    intro k h0 hkj hall
    have hk : k < j := by omega
    have h1 : (runFrom p k).1 = (runFrom p (k + 1)).1 :=
      runFrom_tryNext p k (by omega) (hall k (Nat.le_refl k) hk)
    rw [h1]
    exact ih (k + 1) (by omega) (by omega) (fun m hm1 hm2 => hall m (by omega) hm2)

theorem runFrom_tryNext_pair (p : RunParams) (i : Nat) (es : List Effect)
    (h : i < p.maxNumNewNode) (hit : runIteration p i = (.tryNext, es)) :
    runFrom p i = ((runFrom p (i + 1)).1, es ++ (runFrom p (i + 1)).2) := by
  rw [runFrom_step p i h, hit]

theorem attemptsFrom_mem_of (p : RunParams) :
    ∀ n i0 j, j - i0 = n → i0 ≤ j → j < p.maxNumNewNode →
      (∀ m, i0 ≤ m → m < j → (runIteration p m).1 = .tryNext) →
      j ∈ attemptsFrom p i0 := by
  intro n
  induction n with
  | zero =>
    intro i0 j h0 h1 h2 _
    have : i0 = j := by omega
    subst this
    exact attemptsFrom_self_mem p i0 h2
  | succ n ih =>
    intro i0 j h0 h1 h2 hall
    have hi0 : i0 < j := by omega
    have hi0max : i0 < p.maxNumNewNode := by omega
    rw [attemptsFrom_tryNext p i0 hi0max (hall i0 (Nat.le_refl i0) hi0)]
    exact List.mem_cons_of_mem i0
      (ih (i0 + 1) j (by omega) (by omega) h2 (fun m hm1 hm2 => hall m (by omega) hm2))

theorem classifyPods_head_unfixable (ext : Externals) (nn : Node) (ds : List DaemonSet)
    (u : UnscheduledPod) (rest : List UnscheduledPod)
    (h : ext.nodeShouldRunPod nn u.pod = false) :
    classifyPods ext nn ds (u :: rest) = .ok (some (.unfixable u)) := by
  simp [classifyPods, h]

theorem classifyPods_none_all (ext : Externals) (nn : Node) (ds : List DaemonSet) :
    ∀ pods, classifyPods ext nn ds pods = .ok none →
      ∀ u ∈ pods, ext.nodeShouldRunPod nn u.pod = true ∧
        ext.meetResourceRequests nn u.pod ds = .ok true := by
  intro pods
  induction pods with
  | nil =>
    intro _ u hu
    simp at hu
  | cons v rest ih =>
    intro h u hu
    by_cases hs : ext.nodeShouldRunPod nn v.pod = false
    · rw [classifyPods_head_unfixable ext nn ds v rest hs] at h
      simp at h
    · have hs2 : ext.nodeShouldRunPod nn v.pod = true := by
        cases hx : ext.nodeShouldRunPod nn v.pod
        · exact absurd hx hs
        · rfl
      rcases hm : ext.meetResourceRequests nn v.pod ds with e | b
      · simp [classifyPods, hs2, hm] at h
      · cases b
        · simp [classifyPods, hs2, hm] at h
        · have h2 : classifyPods ext nn ds rest = .ok none := by
            simpa [classifyPods, hs2, hm] using h
          rcases List.mem_cons.mp hu with h1 | h1
          · subst h1
            exact ⟨hs2, hm⟩
          · exact ih h2 u h1

theorem classifyPods_some_of_bad (ext : Externals) (nn : Node) (ds : List DaemonSet) :
    ∀ pods, (∀ u ∈ pods, ∀ e, ext.meetResourceRequests nn u.pod ds ≠ .error e) →
      (∃ u ∈ pods, ext.nodeShouldRunPod nn u.pod = false ∨
        ext.meetResourceRequests nn u.pod ds = .ok false) →
      ∃ r, classifyPods ext nn ds pods = .ok (some r) := by
  intro pods
  induction pods with
  | nil =>
    intro _ hbad
    simp at hbad
  | cons v rest ih =>
    intro hne hbad
    by_cases hs : ext.nodeShouldRunPod nn v.pod = false
    · exact ⟨.unfixable v, classifyPods_head_unfixable ext nn ds v rest hs⟩
    · have hs2 : ext.nodeShouldRunPod nn v.pod = true := by
        cases hx : ext.nodeShouldRunPod nn v.pod
        · exact absurd hx hs
        · rfl
      rcases hm : ext.meetResourceRequests nn v.pod ds with e | b
      · exact absurd hm (hne v (List.mem_cons_self v rest) e)
      · cases b
        · exact ⟨.overheadBlocked v, by simp [classifyPods, hs2, hm]⟩
        · obtain ⟨u, hu, hcase⟩ := hbad
          rcases List.mem_cons.mp hu with h1 | h1
          · subst h1
            rcases hcase with hc | hc
            · exact absurd hc hs
            · rw [hm] at hc
              simp at hc
          · obtain ⟨r, hr⟩ :=
              ih (fun w hw e => hne w (List.mem_cons_of_mem v hw) e) ⟨u, h1, hcase⟩
            exact ⟨r, by simp [classifyPods, hs2, hm, hr]⟩

theorem runIteration_admission_fail (p : RunParams) (i : Nat) (fakes : List Node)
    (result : SimulateResult) (reason : String)
    (hnf : newFakeNodes (some p.newNode) i = .ok fakes)
    (hsim : p.ext.simulate (snapshotWith p fakes) p.selected = .ok result)
    (hemp : result.unscheduledPods = [])
    (hsat : satisfyResourceSetting p.cfg result.nodeStatus = .ok (false, reason)) :
    (runIteration p i).1 = .tryNext := by
  simp [runIteration, hnf, hsim, hemp, hsat]

theorem runIteration_capacity_tryNext (p : RunParams) (i : Nat) (fakes : List Node)
    (result : SimulateResult)
    (hnf : newFakeNodes (some p.newNode) i = .ok fakes)
    (hsim : p.ext.simulate (snapshotWith p fakes) p.selected = .ok result)
    (hne : result.unscheduledPods ≠ [])
    (hc : classifyPods p.ext p.newNode (allDaemonSetsOf p) result.unscheduledPods = .ok none) :
    (runIteration p i).1 = .tryNext := by
  have hemp : result.unscheduledPods.isEmpty = false := by simpa using hne
  simp [runIteration, hnf, hsim, hemp, hc]

theorem runIteration_tryNext_classify (p : RunParams) (i : Nat) (fakes : List Node)
    (result : SimulateResult)
    (hnf : newFakeNodes (some p.newNode) i = .ok fakes)
    (hsim : p.ext.simulate (snapshotWith p fakes) p.selected = .ok result)
    (hne : result.unscheduledPods ≠ [])
    (h : (runIteration p i).1 = .tryNext) :
    classifyPods p.ext p.newNode (allDaemonSetsOf p) result.unscheduledPods = .ok none := by
  have hemp : result.unscheduledPods.isEmpty = false := by simpa using hne
  rcases hc : classifyPods p.ext p.newNode (allDaemonSetsOf p) result.unscheduledPods with e | oc
  · simp [runIteration, hnf, hsim, hemp, hc] at h
  · rcases oc with _ | sr
    · rfl
    · rcases sr with u | u
      · simp [runIteration, hnf, hsim, hemp, hc] at h
      · simp [runIteration, hnf, hsim, hemp, hc] at h

theorem runIteration_structFail_classify (p : RunParams) (i : Nat) (fakes : List Node)
    (result : SimulateResult) (r : StructuralReason)
    (hnf : newFakeNodes (some p.newNode) i = .ok fakes)
    (hsim : p.ext.simulate (snapshotWith p fakes) p.selected = .ok result)
    (hne : result.unscheduledPods ≠ [])
    (hc : classifyPods p.ext p.newNode (allDaemonSetsOf p) result.unscheduledPods = .ok (some r)) :
    (runIteration p i).1 = .structFail r result := by
  have hemp : result.unscheduledPods.isEmpty = false := by simpa using hne
  rcases r with u | u
  · simp [runIteration, hnf, hsim, hemp, hc]
  · simp [runIteration, hnf, hsim, hemp, hc]

theorem runIteration_structFail_report (p : RunParams) (i : Nat) (r : StructuralReason)
    (res : SimulateResult) (h : (runIteration p i).1 = .structFail r res) :
    Effect.reportTable res.nodeStatus ∈ (runIteration p i).2 := by
  rcases hnf : newFakeNodes (some p.newNode) i with e0 | fakes
  · simp [runIteration, hnf] at h
  · rcases hsim : p.ext.simulate (snapshotWith p fakes) p.selected with e0 | result
    · simp [runIteration, hnf, hsim] at h
    · rcases hemp : result.unscheduledPods.isEmpty with _ | _
      · rcases hc : classifyPods p.ext p.newNode (allDaemonSetsOf p) result.unscheduledPods
          with e0 | oc
        · simp [runIteration, hnf, hsim, hemp, hc] at h
        · rcases oc with _ | sr
          · simp [runIteration, hnf, hsim, hemp, hc] at h
          · rcases sr with u | u
            · simp only [runIteration, hnf, hsim, hemp, hc] at h ⊢
              simp at h ⊢
              rw [h.2]
            · simp only [runIteration, hnf, hsim, hemp, hc] at h ⊢
              simp at h ⊢
              rw [h.2]
      · rcases hsat : satisfyResourceSetting p.cfg result.nodeStatus with e0 | pr
        · simp [runIteration, hnf, hsim, hemp, hsat] at h
        · rcases pr with ⟨b, reason⟩
          rcases b with _ | _
          · simp [runIteration, hnf, hsim, hemp, hsat] at h
          · simp [runIteration, hnf, hsim, hemp, hsat] at h

theorem runIteration_tryNext_no_report (p : RunParams) (i : Nat)
    (h : (runIteration p i).1 = .tryNext) :
    ∀ e ∈ (runIteration p i).2, e.isReportTable = false := by
  rcases hnf : newFakeNodes (some p.newNode) i with e0 | fakes
  · simp [runIteration, hnf] at h
  · rcases hsim : p.ext.simulate (snapshotWith p fakes) p.selected with e0 | result
    · simp [runIteration, hnf, hsim] at h
    · rcases hemp : result.unscheduledPods.isEmpty with _ | _
      · rcases hc : classifyPods p.ext p.newNode (allDaemonSetsOf p) result.unscheduledPods
          with e0 | oc
        · simp [runIteration, hnf, hsim, hemp, hc] at h
        · rcases oc with _ | sr
          · intro e he
            simp only [runIteration, hnf, hsim, hemp, hc] at he
            simp at he
            rcases he with he | he <;> rw [he] <;> rfl
          · rcases sr with u | u
            · simp [runIteration, hnf, hsim, hemp, hc] at h
            · simp [runIteration, hnf, hsim, hemp, hc] at h
      · rcases hsat : satisfyResourceSetting p.cfg result.nodeStatus with e0 | pr
        · simp [runIteration, hnf, hsim, hemp, hsat] at h
        · rcases pr with ⟨b, reason⟩
          rcases b with _ | _
          · intro e he
            simp only [runIteration, hnf, hsim, hemp, hsat] at he
            simp at he
            rcases he with he | he <;> rw [he] <;> rfl
          · simp [runIteration, hnf, hsim, hemp, hsat] at h

theorem runFrom_success_first (p : RunParams) :
    ∀ n i0 res i, p.maxNumNewNode - i0 = n →
      (runFrom p i0).1 = RunOutcome.success res i →
      i0 ≤ i ∧ i < p.maxNumNewNode ∧ (runIteration p i).1 = .succeeded res ∧
        ∀ k, i0 ≤ k → k < i → (runIteration p k).1 = .tryNext := by
  intro n
  induction n with
  | zero =>
    intro i0 res i h0 h
    rw [runFrom_stop p i0 (by omega)] at h
    simp at h
  | succ n ih =>
    intro i0 res i h0 h
    have hi : i0 < p.maxNumNewNode := by omega
    rcases hr : runIteration p i0 with ⟨r, es⟩
    cases r with
    | succeeded res0 =>
      rw [runFrom_succeeded p i0 res0 es hi hr] at h
      have h9 : RunOutcome.success res0 i0 = RunOutcome.success res i := h
      rw [RunOutcome.success.injEq] at h9
      obtain ⟨h1, h2⟩ := h9
      subst h2
      refine ⟨Nat.le_refl i0, hi, ?_, fun k hk1 hk2 => by omega⟩
      rw [hr, h1]
    | structFail r0 res0 =>
      rw [runFrom_structFail p i0 r0 res0 es hi hr] at h
      simp at h
    | fatal e =>
      rw [runFrom_fatal p i0 e es hi hr] at h
      simp at h
    | tryNext =>
      have hstep : (runFrom p i0).1 = (runFrom p (i0 + 1)).1 :=
        runFrom_tryNext p i0 hi (by rw [hr])
      rw [hstep] at h
      obtain ⟨h1, h2, h3, h4⟩ := ih (i0 + 1) res i (by omega) h
      refine ⟨by omega, h2, h3, fun k hk1 hk2 => ?_⟩
      rcases Nat.eq_or_lt_of_le hk1 with hk | hk
      · rw [← hk, hr]
      · exact h4 k (by omega) hk2

theorem runFrom_struct_report (p : RunParams) :
    ∀ n i0 r res i, p.maxNumNewNode - i0 = n →
      (runFrom p i0).1 = RunOutcome.structurallyFailed r res i →
      Effect.reportTable res.nodeStatus ∈ (runFrom p i0).2 := by
  intro n
  induction n with
  | zero =>
    intro i0 r res i h0 h
    rw [runFrom_stop p i0 (by omega)] at h
    simp at h
  | succ n ih =>
    intro i0 r res i h0 h
    have hi : i0 < p.maxNumNewNode := by omega
    rcases hr : runIteration p i0 with ⟨rr, es⟩
    cases rr with
    | succeeded res0 =>
      rw [runFrom_succeeded p i0 res0 es hi hr] at h
      simp at h
    | structFail r0 res0 =>
      rw [runFrom_structFail p i0 r0 res0 es hi hr] at h ⊢
      have h9 : RunOutcome.structurallyFailed r0 res0 i0 =
          RunOutcome.structurallyFailed r res i := h
      rw [RunOutcome.structurallyFailed.injEq] at h9
      obtain ⟨h1, h2, h3⟩ := h9
      have hrep := runIteration_structFail_report p i0 r0 res0 (by rw [hr])
      rw [hr] at hrep
      rw [← h2]
      exact hrep
    | fatal e =>
      rw [runFrom_fatal p i0 e es hi hr] at h
      simp at h
    | tryNext =>
      rw [runFrom_tryNext_pair p i0 es hi hr] at h ⊢
      exact List.mem_append.mpr (Or.inr (ih (i0 + 1) r res i (by omega) h))

theorem runFrom_success_report (p : RunParams) :
    ∀ n i0 res i, p.maxNumNewNode - i0 = n →
      (runFrom p i0).1 = RunOutcome.success res i →
      Effect.reportTable res.nodeStatus ∈ (runFrom p i0).2 := by
  intro n
  induction n with
  | zero =>
    intro i0 res i h0 h
    rw [runFrom_stop p i0 (by omega)] at h
    simp at h
  | succ n ih =>
    intro i0 res i h0 h
    have hi : i0 < p.maxNumNewNode := by omega
    rcases hr : runIteration p i0 with ⟨rr, es⟩
    cases rr with
    | succeeded res0 =>
      rw [runFrom_succeeded p i0 res0 es hi hr] at h ⊢
      have h9 : RunOutcome.success res0 i0 = RunOutcome.success res i := h
      rw [RunOutcome.success.injEq] at h9
      obtain ⟨h1, h2⟩ := h9
      rw [← h1]
      simp
    | structFail r0 res0 =>
      rw [runFrom_structFail p i0 r0 res0 es hi hr] at h
      simp at h
    | fatal e =>
      rw [runFrom_fatal p i0 e es hi hr] at h
      simp at h
    | tryNext =>
      rw [runFrom_tryNext_pair p i0 es hi hr] at h ⊢
      exact List.mem_append.mpr (Or.inr (ih (i0 + 1) res i (by omega) h))

theorem runFrom_exhausted_no_report (p : RunParams) :
    ∀ n i0, p.maxNumNewNode - i0 = n →
      (runFrom p i0).1 = RunOutcome.exhausted →
      ∀ e ∈ (runFrom p i0).2, e.isReportTable = false := by
  intro n
  induction n with
  | zero =>
    intro i0 h0 _ e he
    rw [runFrom_stop p i0 (by omega)] at he
    have h9 : e = Effect.exhaustedMsg p.maxNumNewNode := by simpa using he
    rw [h9]
    rfl
  | succ n ih =>
    intro i0 h0 h e he
    have hi : i0 < p.maxNumNewNode := by omega
    rcases hr : runIteration p i0 with ⟨rr, es⟩
    cases rr with
    | succeeded res0 =>
      rw [runFrom_succeeded p i0 res0 es hi hr] at h
      simp at h
    | structFail r0 res0 =>
      rw [runFrom_structFail p i0 r0 res0 es hi hr] at h
      simp at h
    | fatal e0 =>
      rw [runFrom_fatal p i0 e0 es hi hr] at h
      simp at h
    | tryNext =>
      rw [runFrom_tryNext_pair p i0 es hi hr] at h he
      rcases List.mem_append.mp he with hel | her
      · have hno := runIteration_tryNext_no_report p i0 (by rw [hr])
        rw [hr] at hno
        exact hno e hel
      · exact ih (i0 + 1) (by omega) h e her

theorem getKV_setKV : ∀ ls : List (String × String), ∀ k v, getKV (setKV ls k v) k = some v := by
  intro ls
  induction ls with
  | nil =>
    intro k v
    simp [getKV, setKV, List.find?]
  | cons hd rest ih =>
    intro k v
    rcases hd with ⟨k0, v0⟩
    by_cases h : k0 = k
    · simp [getKV, setKV, h, List.find?]
    · simp only [setKV, if_neg h]
      have := ih k v
      simp only [getKV, List.find?] at this ⊢
      have hdec : (decide (k0 = k)) = false := by simpa using h
      rw [hdec]
      exact this

theorem string_append_data (a b : String) : (a ++ b).data = a.data ++ b.data := by
  rcases a with ⟨la⟩
  rcases b with ⟨lb⟩
  rfl

theorem fakeNodeName_injective : Function.Injective fakeNodeName := by
  intro i j h
  apply pad2_injective
  apply String.ext
  have hd := congrArg String.data h
  simp only [fakeNodeName, string_append_data] at hd
  exact List.append_cancel_left hd

/-! ## Claim theorems -/

/-- C1: per unplaced pod, the placement-constraint check (NodeShouldRunPod)
runs before the companion-workload overhead check (MeetResourceRequests) — a
pod failing it is classified unfixable with the overhead check never
consulted; if any unplaced pod is classified unfixable or overhead-blocked,
the attempted iteration ends the whole run as structurally failed at the
current node count and no further count is attempted; and the loop proceeds
to the next count with unplaced pods present only when every unplaced pod
passed both checks, i.e. is merely capacity-limited. -/
theorem C1_classifier_priority_and_abort :
    (∀ ext nn ds u rest, ext.nodeShouldRunPod nn u.pod = false →
      classifyPods ext nn ds (u :: rest) = .ok (some (.unfixable u)))
    ∧ (∀ p : RunParams, ∀ i r res, i ∈ attempts p →
        (runIteration p i).1 = .structFail r res →
        (run p).1 = .structurallyFailed r res i ∧ attemptsFrom p i = [i])
    ∧ (∀ ext nn ds pods, classifyPods ext nn ds pods = .ok none →
        ∀ u ∈ pods, ext.nodeShouldRunPod nn u.pod = true ∧
          ext.meetResourceRequests nn u.pod ds = .ok true)
    ∧ (∀ ext nn ds pods,
        (∀ u ∈ pods, ∀ e, ext.meetResourceRequests nn u.pod ds ≠ .error e) →
        (∃ u ∈ pods, ext.nodeShouldRunPod nn u.pod = false ∨
          ext.meetResourceRequests nn u.pod ds = .ok false) →
        ∃ r, classifyPods ext nn ds pods = .ok (some r))
    ∧ (∀ p : RunParams, ∀ i fakes result, i < p.maxNumNewNode →
        newFakeNodes (some p.newNode) i = .ok fakes →
        p.ext.simulate (snapshotWith p fakes) p.selected = .ok result →
        result.unscheduledPods ≠ [] →
        (runIteration p i).1 = .tryNext →
        classifyPods p.ext p.newNode (allDaemonSetsOf p) result.unscheduledPods = .ok none) := by
  refine ⟨classifyPods_head_unfixable, ?_, classifyPods_none_all, classifyPods_some_of_bad,
    fun p i fakes result h1 h2 h3 h4 h5 =>
      runIteration_tryNext_classify p i fakes result h2 h3 h4 h5⟩
  intro p i r res hmem hit
  obtain ⟨hi, hall⟩ := attempts_mem p i hmem
  have hskip : (runFrom p 0).1 = (runFrom p i).1 :=
    runFrom_skip p i (by omega) (i - 0) 0 rfl (by omega)
      (fun m hm1 hm2 => hall m hm2)
  rcases hr : runIteration p i with ⟨rr, es⟩
  have hrr : rr = .structFail r res := by rw [hr] at hit; exact hit
  subst hrr
  constructor
  · have hi2 := runFrom_structFail p i r res es hi hr
    show (runFrom p 0).1 = _
    rw [hskip, hi2]
  · exact attemptsFrom_last p i hi (by rw [hr]; simp)

/-- C1 witness: with an oracle whose unplaced pod fails the placement check
against the template, the classifier reports it unfixable. -/
theorem C1_witness :
    classifyPods sampleUnfixExt sampleTemplate [] [sampleUnscheduled] =
      .ok (some (.unfixable sampleUnscheduled)) :=
  C1_classifier_priority_and_abort.1 sampleUnfixExt sampleTemplate [] sampleUnscheduled [] rfl

/-- C2: the attempted node counts are exactly 0, 1, 2, ... and all lie below
the ceiling; an iteration that fails non-structurally (tryNext, which covers
an admission rejection after full placement) is followed by count i+1 when
i+1 is below the ceiling and otherwise the run is exhausted; a successful run
terminates on the first count whose iteration fully places and passes
admission, and conversely. -/
theorem C2_search_order_ceiling_first_success (p : RunParams) :
    (∃ k, k ≤ p.maxNumNewNode ∧ attempts p = List.range k)
    ∧ (∀ j, j ∈ attempts p → j < p.maxNumNewNode)
    ∧ (∀ i, i < p.maxNumNewNode → (runIteration p i).1 = .tryNext →
        (runFrom p i).1 = (runFrom p (i + 1)).1
        ∧ (i + 1 < p.maxNumNewNode → i ∈ attempts p → i + 1 ∈ attempts p)
        ∧ (¬ i + 1 < p.maxNumNewNode → (runFrom p (i + 1)).1 = RunOutcome.exhausted))
    ∧ (∀ res i, (run p).1 = RunOutcome.success res i →
        i < p.maxNumNewNode ∧ (runIteration p i).1 = .succeeded res ∧
          ∀ k, k < i → (runIteration p k).1 = .tryNext)
    ∧ (∀ res i, i < p.maxNumNewNode → (runIteration p i).1 = .succeeded res →
        (∀ k, k < i → (runIteration p k).1 = .tryNext) →
        (run p).1 = RunOutcome.success res i)
    ∧ (∀ i fakes result reason, i < p.maxNumNewNode →
        newFakeNodes (some p.newNode) i = .ok fakes →
        p.ext.simulate (snapshotWith p fakes) p.selected = .ok result →
        result.unscheduledPods = [] →
        satisfyResourceSetting p.cfg result.nodeStatus = .ok (false, reason) →
        (runIteration p i).1 = .tryNext) := by
  refine ⟨attempts_is_range p, ?_, ?_, ?_, ?_,
    fun i fakes result reason h1 h2 h3 h4 h5 =>
      runIteration_admission_fail p i fakes result reason h2 h3 h4 h5⟩
  · intro j hj
    exact (attempts_mem p j hj).1
  · intro i hi hit
    refine ⟨runFrom_tryNext p i hi hit, ?_, ?_⟩
    · intro hi1 hmem
      obtain ⟨_, hall⟩ := attempts_mem p i hmem
      refine attemptsFrom_mem_of p (i + 1 - 0) 0 (i + 1) rfl (by omega) hi1 ?_
      intro m hm1 hm2
      rcases Nat.lt_succ_iff_lt_or_eq.mp hm2 with hm | hm
      · exact hall m hm
      · rw [hm]; exact hit
    · intro hi1
      rw [runFrom_stop p (i + 1) hi1]
  · intro res i h
    obtain ⟨h1, h2, h3, h4⟩ :=
      runFrom_success_first p (p.maxNumNewNode - 0) 0 res i rfl h
    exact ⟨h2, h3, fun k hk => h4 k (Nat.zero_le k) hk⟩
  · intro res i hi hit hall
    have hskip : (runFrom p 0).1 = (runFrom p i).1 :=
      runFrom_skip p i (by omega) (i - 0) 0 rfl (by omega)
        (fun m hm1 hm2 => hall m hm2)
    rcases hr : runIteration p i with ⟨rr, es⟩
    have hrr : rr = .succeeded res := by rw [hr] at hit; exact hit
    subst hrr
    show (runFrom p 0).1 = _
    rw [hskip, runFrom_succeeded p i res es hi hr]

/-- C2 witness: in the success scenario the run terminates at count 2 whose
iteration succeeded, and in the never-placeable scenario with ceiling 5 the
state after the last attempted count 4 is exhausted. -/
theorem C2_witness :
    (runIteration sampleSuccessParams 2).1 = .succeeded sampleSuccessRes
    ∧ (runFrom sampleExhaustParams 5).1 = RunOutcome.exhausted :=
  ⟨((C2_search_order_ceiling_first_success sampleSuccessParams).2.2.2.1
      sampleSuccessRes 2 rfl).2.1,
   (((C2_search_order_ceiling_first_success sampleExhaustParams).2.2.1 4 (by decide)
      rfl).2.2 (by decide))⟩

set_option maxRecDepth 8000 in
/-- C3 (amended): the admission checker rejects on the first resource kind,
in the fixed order cpu, memory, volume group, whose occupancy strictly
exceeds its ceiling, and accepts when none does; the occupancy is the
truncation toward zero of the binary64 evaluation of
requested/allocatable*100 (not always the exact floor); on the concrete
example (1000m allocatable, 900m requested) the occupancy is exactly 90 and
a cpu ceiling of 80 rejects reporting 90% while a ceiling of 95 accepts. -/
theorem C3_admission_first_reject_float :
    (∀ cfg sts t, computeTotals sts = .ok t → cpuRejects cfg t = true →
      satisfyResourceSetting cfg sts = .ok (false, cpuRejectMsg cfg t))
    ∧ (∀ cfg sts t, computeTotals sts = .ok t → cpuRejects cfg t = false →
      memRejects cfg t = true →
      satisfyResourceSetting cfg sts = .ok (false, memRejectMsg cfg t))
    ∧ (∀ cfg sts t, computeTotals sts = .ok t → cpuRejects cfg t = false →
      memRejects cfg t = false → vgRejects cfg t = true →
      satisfyResourceSetting cfg sts = .ok (false, vgRejectMsg cfg t))
    ∧ (∀ cfg sts t, computeTotals sts = .ok t → cpuRejects cfg t = false →
      memRejects cfg t = false → vgRejects cfg t = false →
      satisfyResourceSetting cfg sts = .ok (true, ""))
    ∧ occupancyRate 900 1000 = 90
    ∧ satisfyResourceSetting ⟨some 80, none, none⟩ [admissionStatus] =
        .ok (false, "the average occupancy rate(90%) of cpu goes beyond the env setting(80%)\n")
    ∧ satisfyResourceSetting ⟨some 95, none, none⟩ [admissionStatus] = .ok (true, "") := by
  refine ⟨?_, ?_, ?_, ?_, by decide, rfl, rfl⟩
  · intro cfg sts t hct hcpu
    simp [satisfyResourceSetting, hct, hcpu]
  · intro cfg sts t hct hcpu hmem
    simp [satisfyResourceSetting, hct, hcpu, hmem]
  · intro cfg sts t hct hcpu hmem hvg
    simp [satisfyResourceSetting, hct, hcpu, hmem, hvg]
  · intro cfg sts t hct hcpu hmem hvg
    simp [satisfyResourceSetting, hct, hcpu, hmem, hvg]

set_option maxRecDepth 8000 in
/-- C3 counterexample: occupancy is not floor(requested*100/allocatable) —
with 290m requested against 1000m allocatable the binary64 computation
truncates to 28 while the floor is 29, and with a cpu ceiling of 28 the
checker accepts the snapshot that floor semantics would reject. -/
theorem C3_counterexample :
    occupancyRate 290 1000 = 28
    ∧ 290 * 100 / 1000 = 29
    ∧ satisfyResourceSetting ⟨some 28, none, none⟩ [floorGapStatus] = .ok (true, "") :=
  ⟨by decide, by decide, rfl⟩

set_option maxRecDepth 8000 in
/-- C3 witness: the cpu rejection branch applied to the concrete snapshot
with the totals evaluated. -/
theorem C3_witness :
    satisfyResourceSetting ⟨some 80, none, none⟩ [admissionStatus] =
      .ok (false, cpuRejectMsg ⟨some 80, none, none⟩ admissionTotals) :=
  C3_admission_first_reject_float.1 ⟨some 80, none, none⟩ [admissionStatus]
    admissionTotals rfl (by decide)

/-- C4: the volume-group kind is explicitly skipped when its total capacity
is zero, but the cpu (and memory) occupancy computation is reached with a
zero denominator — the concrete snapshot has zero total allocatable cpu and
positive total requested cpu, so the Go code divides by zero in float64 and
converts NaN/Inf to int, which is implementation-dependent. -/
theorem C4_zero_allocatable_reached :
    computeTotals zeroAllocStatuses = .ok zeroAllocTotals
    ∧ zeroAllocTotals.allocCpuMilli = 0
    ∧ 0 < zeroAllocTotals.usedCpuMilli
    ∧ vgRejects ⟨none, none, none⟩ zeroVgTotals = false
    ∧ zeroVgTotals.vgRequested ≠ 0 :=
  ⟨rfl, rfl, by decide, by decide, by decide⟩

/-- C5: each admission ceiling defaults to 100 when unconfigured, silently
resets to 100 when configured outside [0, 100], equals the configured value
inside [0, 100], and the three ceilings act independently: each rejection
test reads only its own configured value. -/
theorem C5_ceiling_defaults_and_clamp :
    clampCeiling none = 100
    ∧ (∀ v : Int, v < 0 ∨ v > 100 → clampCeiling (some v) = 100)
    ∧ (∀ v : Int, 0 ≤ v → v ≤ 100 → (clampCeiling (some v) : Int) = v)
    ∧ (∀ a b c b2 c2 t, cpuRejects ⟨a, b, c⟩ t = cpuRejects ⟨a, b2, c2⟩ t)
    ∧ (∀ a b c a2 c2 t, memRejects ⟨a, b, c⟩ t = memRejects ⟨a2, b, c2⟩ t)
    ∧ (∀ a b c a2 b2 t, vgRejects ⟨a, b, c⟩ t = vgRejects ⟨a2, b2, c⟩ t) := by
  refine ⟨rfl, ?_, ?_, fun a b c b2 c2 t => rfl, fun a b c a2 c2 t => rfl,
    fun a b c a2 b2 t => rfl⟩
  · intro v hv
    have : v > 100 ∨ v < 0 := by omega
    simp [clampCeiling, this]
  · intro v h0 h100
    have : ¬ (v > 100 ∨ v < 0) := by omega
    simp only [clampCeiling, if_neg this]
    exact Int.toNat_of_nonneg h0

/-- C5 witness: an out-of-range value resets to 100 and an in-range value is
kept exactly. -/
theorem C5_witness :
    clampCeiling (some 150) = 100 ∧ (clampCeiling (some 37) : Int) = 37 :=
  ⟨C5_ceiling_defaults_and_clamp.2.1 150 (Or.inr (by decide)),
   C5_ceiling_defaults_and_clamp.2.2.1 37 (by decide) (by decide)⟩

/-- C6: the expander errs exactly when the template is absent; count 0 yields
the empty sequence without error; count c yields c nodes in order whose names
are the prefix with the zero-padded two-digit-minimum decimal index, pairwise
distinct, each carrying the simulator-added marker label; and the expander is
a pure function of template and count, so two calls agree structurally. -/
theorem C6_expander_names_and_marker :
    (∀ c, newFakeNodes none c = .error "node is nil ")
    ∧ (∀ nd : Node, ∀ c, ∃ l, newFakeNodes (some nd) c = .ok l)
    ∧ (∀ nd : Node, newFakeNodes (some nd) 0 = .ok [])
    ∧ (∀ nd : Node, ∀ c l, newFakeNodes (some nd) c = .ok l →
        l.length = c
        ∧ (∀ j, (hj : j < l.length) → l[j].name = fakeNodeName j
            ∧ getKV l[j].labels labelNewNode = some "")
        ∧ (l.map Node.name).Nodup)
    ∧ (∀ nd : Node, ∀ c, newFakeNodes (some nd) c = newFakeNodes (some nd) c) := by
  refine ⟨fun c => rfl, fun nd c => ⟨_, rfl⟩, fun nd => rfl, ?_, fun nd c => rfl⟩
  intro nd c l h
  have hl : l = (List.range c).map (fakeNodeAt nd) := by
    have h9 : Except.ok (ε := String) ((List.range c).map (fakeNodeAt nd)) = .ok l := h
    rw [Except.ok.injEq] at h9
    rw [h9]
  subst hl
  refine ⟨by simp, ?_, ?_⟩
  · intro j hj
    have hj2 : j < c := by simpa using hj
    constructor
    · simp [List.getElem_map, fakeNodeAt, setMetaDataLabel, makeValidNodeByNode]
    · simp only [List.getElem_map, List.getElem_range]
      exact getKV_setKV _ labelNewNode ""
  · have hmap : ((List.range c).map (fakeNodeAt nd)).map Node.name =
        (List.range c).map fakeNodeName := by
      rw [List.map_map]
      rfl
    rw [hmap]
    exact (List.nodup_range c).map fakeNodeName_injective

/-- C6 witness: the nil-template error, the empty count-0 expansion, and the
concrete 3-node expansion with distinct names. -/
theorem C6_witness :
    newFakeNodes none 2 = .error "node is nil "
    ∧ newFakeNodes (some sampleTemplate) 0 = .ok []
    ∧ ((List.range 3).map (fakeNodeAt sampleTemplate)).length = 3
    ∧ (((List.range 3).map (fakeNodeAt sampleTemplate)).map Node.name).Nodup :=
  ⟨C6_expander_names_and_marker.1 2,
   C6_expander_names_and_marker.2.2.1 sampleTemplate,
   (C6_expander_names_and_marker.2.2.2.1 sampleTemplate 3
      ((List.range 3).map (fakeNodeAt sampleTemplate)) rfl).1,
   (C6_expander_names_and_marker.2.2.2.1 sampleTemplate 3
      ((List.range 3).map (fakeNodeAt sampleTemplate)) rfl).2.2⟩

/-- C7 (amended): the non-fatal terminal outcomes return a nil error; a
structural failure and a success additionally put the full node-status report
in the console trace, but an exhausted run emits only the failure message —
its trace contains no report at all. -/
theorem C7_nonfatal_nil_error_and_reports (p : RunParams) :
    (∀ r res i, (run p).1 = RunOutcome.structurallyFailed r res i →
      RunOutcome.returnsNilError (run p).1 = true ∧
        Effect.reportTable res.nodeStatus ∈ (run p).2)
    ∧ (∀ res i, (run p).1 = RunOutcome.success res i →
        RunOutcome.returnsNilError (run p).1 = true ∧
          Effect.reportTable res.nodeStatus ∈ (run p).2)
    ∧ ((run p).1 = RunOutcome.exhausted →
        RunOutcome.returnsNilError (run p).1 = true ∧
          ∀ e ∈ (run p).2, e.isReportTable = false) := by
  refine ⟨?_, ?_, ?_⟩
  · intro r res i h
    refine ⟨by rw [h]; rfl, ?_⟩
    exact runFrom_struct_report p (p.maxNumNewNode - 0) 0 r res i rfl h
  · intro res i h
    refine ⟨by rw [h]; rfl, ?_⟩
    exact runFrom_success_report p (p.maxNumNewNode - 0) 0 res i rfl h
  · intro h
    refine ⟨by rw [h]; rfl, ?_⟩
    exact runFrom_exhausted_no_report p (p.maxNumNewNode - 0) 0 rfl h

/-- C7 counterexample: the never-placeable run with ceiling 5 ends exhausted,
returns a nil error, but its console trace contains no node-status report —
an exhausted run produces only the failure message, refuting that every
non-fatal terminal outcome produces a complete diagnostic report. -/
theorem C7_counterexample :
    (run sampleExhaustParams).1 = RunOutcome.exhausted
    ∧ RunOutcome.returnsNilError (run sampleExhaustParams).1 = true
    ∧ (run sampleExhaustParams).2.any Effect.isReportTable = false :=
  ⟨rfl, rfl, rfl⟩

/-- C7 witness: in the structurally failing run the report for the final
node statuses is in the trace and the outcome is a nil-error return. -/
theorem C7_witness :
    RunOutcome.returnsNilError (run sampleStructParams).1 = true ∧
      Effect.reportTable sampleStructRes.nodeStatus ∈ (run sampleStructParams).2 :=
  (C7_nonfatal_nil_error_and_reports sampleStructParams).1
    (.unfixable sampleUnscheduled) sampleStructRes 0 rfl

theorem withSimulate_newNode (p : RunParams) (sim2 : ResourceTypes → List AppResource → Except String SimulateResult) :
    (withSimulate p sim2).newNode = p.newNode := rfl

theorem withSimulate_selected (p : RunParams) (sim2 : ResourceTypes → List AppResource → Except String SimulateResult) :
    (withSimulate p sim2).selected = p.selected := rfl

theorem withSimulate_cfg (p : RunParams) (sim2 : ResourceTypes → List AppResource → Except String SimulateResult) :
    (withSimulate p sim2).cfg = p.cfg := rfl

theorem withSimulate_sim (p : RunParams) (sim2 : ResourceTypes → List AppResource → Except String SimulateResult) :
    (withSimulate p sim2).ext.simulate = sim2 := rfl

theorem snapshotWith_withSimulate (p : RunParams) (sim2 : ResourceTypes → List AppResource → Except String SimulateResult)
    (fakes : List Node) :
    snapshotWith (withSimulate p sim2) fakes = snapshotWith p fakes := rfl

theorem allDaemonSetsOf_withSimulate (p : RunParams) (sim2 : ResourceTypes → List AppResource → Except String SimulateResult) :
    allDaemonSetsOf (withSimulate p sim2) = allDaemonSetsOf p := rfl

theorem classifyPods_ext_congr (ext1 ext2 : Externals)
    (hs : ext1.nodeShouldRunPod = ext2.nodeShouldRunPod)
    (hm : ext1.meetResourceRequests = ext2.meetResourceRequests) :
    ∀ nn ds pods, classifyPods ext1 nn ds pods = classifyPods ext2 nn ds pods := by
  intro nn ds pods
  induction pods with
  | nil => rfl
  | cons u rest ih =>
    simp only [classifyPods, hs, hm, ih]

theorem classifyPods_withSimulate (p : RunParams)
    (sim2 : ResourceTypes → List AppResource → Except String SimulateResult) :
    classifyPods (withSimulate p sim2).ext = classifyPods p.ext := by
  funext nn ds pods
  exact classifyPods_ext_congr (withSimulate p sim2).ext p.ext rfl rfl nn ds pods

/-- C8: the loop consults the oracle only on snapshots built afresh from the
unchanged original cluster resource with the i freshly generated clones
appended — replacing the oracle by any oracle that agrees on exactly those
snapshots leaves the whole run unchanged — and iteration i clones exactly i
candidate nodes. -/
theorem C8_fresh_snapshot_frame (p : RunParams)
    (sim2 : ResourceTypes → List AppResource → Except String SimulateResult)
    (hsim : ∀ i fakes, i < p.maxNumNewNode →
      newFakeNodes (some p.newNode) i = .ok fakes →
      sim2 (snapshotWith p fakes) p.selected =
        p.ext.simulate (snapshotWith p fakes) p.selected) :
    run (withSimulate p sim2) = run p
    ∧ (∀ i fakes, newFakeNodes (some p.newNode) i = .ok fakes → fakes.length = i) := by
  constructor
  · have hiter : ∀ i, i < p.maxNumNewNode →
        runIteration (withSimulate p sim2) i = runIteration p i := by
      intro i hi
      rcases hnf : newFakeNodes (some p.newNode) i with e | fakes
      · simp only [runIteration, withSimulate_newNode, hnf]
      · rcases hs : p.ext.simulate (snapshotWith p fakes) p.selected with e | result
        · simp only [runIteration, withSimulate_newNode, withSimulate_selected,
            withSimulate_cfg, withSimulate_sim, snapshotWith_withSimulate,
            allDaemonSetsOf_withSimulate, classifyPods_withSimulate, hnf,
            hsim i fakes hi hnf, hs]
        · simp only [runIteration, withSimulate_newNode, withSimulate_selected,
            withSimulate_cfg, withSimulate_sim, snapshotWith_withSimulate,
            allDaemonSetsOf_withSimulate, classifyPods_withSimulate, hnf,
            hsim i fakes hi hnf, hs]
    have hloop : ∀ fuel i, fuel + i ≤ p.maxNumNewNode →
        runLoop (withSimulate p sim2) fuel i = runLoop p fuel i := by
      intro fuel
      induction fuel with
      | zero => intro i _; rfl
      | succ fuel ih =>
        intro i hfi
        simp only [runLoop]
        rw [hiter i (by omega), ih (i + 1) (by omega)]
    have h := hloop p.maxNumNewNode 0 (by omega)
    unfold run runFrom
    rw [Nat.sub_zero, Nat.sub_zero]
    exact h
  · intro i fakes h
    have h9 : Except.ok (ε := String) ((List.range i).map (fakeNodeAt p.newNode)) = .ok fakes := h
    rw [Except.ok.injEq] at h9
    rw [← h9]
    simp

/-- C8 witness: replacing the oracle of the exhaustion scenario by itself (an
oracle trivially agreeing on the iteration snapshots) leaves the run
unchanged. -/
theorem C8_witness :
    run (withSimulate sampleExhaustParams sampleExhaustParams.ext.simulate) =
      run sampleExhaustParams :=
  (C8_fresh_snapshot_frame sampleExhaustParams sampleExhaustParams.ext.simulate
    (fun _ _ _ _ => rfl)).1

/-- C10: validate rejects with an error whenever both cluster sources are
configured or neither is, and when it accepts, exactly one of the two
sources is configured. -/
theorem C10_exactly_one_cluster_source (pathExists : String → Bool) (a : Applier) :
    ((a.cluster.kubeConfig.length = 0 ∧ a.cluster.customCluster.length = 0)
      ∨ (a.cluster.kubeConfig.length ≠ 0 ∧ a.cluster.customCluster.length ≠ 0) →
      validate pathExists a =
        .error "only one of values of both kubeConfig and customConfig must exist ")
    ∧ (validate pathExists a = .ok () →
      ((a.cluster.kubeConfig.length = 0 ∧ a.cluster.customCluster.length ≠ 0)
        ∨ (a.cluster.kubeConfig.length ≠ 0 ∧ a.cluster.customCluster.length = 0))) := by
  constructor
  · intro h
    unfold validate
    rw [if_pos h]
  · intro h
    by_cases hc : (a.cluster.kubeConfig.length = 0 ∧ a.cluster.customCluster.length = 0)
      ∨ (a.cluster.kubeConfig.length ≠ 0 ∧ a.cluster.customCluster.length ≠ 0)
    · rw [validate, if_pos hc] at h
      simp at h
    · omega

/-- C10 witness: both the neither-source and the both-sources configurations
are rejected with the configuration error. -/
theorem C10_witness :
    validate (fun _ => true) neitherSourceApplier =
      .error "only one of values of both kubeConfig and customConfig must exist "
    ∧ validate (fun _ => true) bothSourceApplier =
      .error "only one of values of both kubeConfig and customConfig must exist " :=
  ⟨(C10_exactly_one_cluster_source (fun _ => true) neitherSourceApplier).1
      (Or.inl ⟨rfl, rfl⟩),
   (C10_exactly_one_cluster_source (fun _ => true) bothSourceApplier).1
      (Or.inr ⟨by decide, by decide⟩)⟩
